import Mathlib

/-!
Verification of the devbox MCP server's target-resolution and
request-orchestration layer (`src/devbox/mcp_server.py`).

The three facade operations and the resolver are embedded as Lean
functions.  The `DevBoxManager` / EC2 collaborator (whose implementation
lives outside this layer) is modelled as a record of fallible functions:
each call either returns a value (`Except.ok`) or raises, with the raised
Python exception represented by its string description (`str(e)`).  Every
embedded operation returns, alongside its `Except` result, the trace of
collaborator calls it issued with their exact arguments, so that claims
about which calls are made, how often, and with which arguments are
directly statable.
-/

namespace Devbox

/-- Normalized view of a provider compute instance as consumed by
`mcp_server`: records returned by `list_instances` expose `InstanceId` and
`Project` fields, and raw `describe_instances` records expose `InstanceId`
and `Tags` (a list of key/value pairs).  `Option` models a Python
`dict.get` that may return `None`; `tags` models `get("Tags", [])` whose
default is the empty list. -/
structure InstanceRecord where
  instanceId : Option String
  project : Option String
  tags : List (String × String)
deriving DecidableEq, Repr

/-- Opaque volume record: `devbox_status` passes these through unmodified,
so their internal shape is irrelevant; an association list stands in for
the serialized dict. -/
structure VolumeRecord where
  fields : List (String × String)
deriving DecidableEq, Repr

/-- Opaque snapshot record, passed through unmodified by `devbox_status`. -/
structure SnapshotRecord where
  fields : List (String × String)
deriving DecidableEq, Repr

/-- Opaque launch result: `devbox_launch` returns the collaborator's
structured record exactly as produced, so its shape is irrelevant here. -/
structure LaunchResult where
  fields : List (String × String)
deriving DecidableEq, Repr

/-- One call made against the `DevBoxManager` collaborator (or its `ec2`
client), recording the operation and the exact arguments passed. -/
inductive CallEvent where
  | listInstances (project : Option String) (serialize : Bool)
  | listVolumes (project : Option String)
  | listSnapshots (project : Option String) (serialize : Bool)
  | describeInstances (instanceIds : List String)
  | terminateInstance (identifier : String)
deriving DecidableEq, Repr

/-- Behaviour of the `DevBoxManager` collaborator together with its `ec2`
client.  Each operation either returns a value or raises; a raised
exception is modelled by its string description.  `describe_instances`
returns the `Reservations` list of the EC2 response, each reservation being
its `Instances` list. -/
structure Manager where
  list_instances : Option String → Bool → Except String (List InstanceRecord)
  list_volumes : Option String → Except String (List VolumeRecord)
  list_snapshots : Option String → Bool → Except String (List SnapshotRecord)
  describe_instances : List String → Except String (List (List InstanceRecord))
  terminate_instance : String → Except String (Bool × String)

/-- Modelled from the spec: `utils.get_project_tag` is not under `src`.
Spec section 6 describes it as the tag-extraction helper
`project_of(tags) -> string|null`, and section 4.1 states that an absent
tag yields a null project: it returns the value of the `Project` tag when
one is present and `none` otherwise. -/
def get_project_tag (tags : List (String × String)) : Option String :=
  (tags.find? (fun t => t.fst = "Project")).map (fun t => t.snd)

/-- Python `x or None` on an optional string: both `None` and the empty
string are falsy and collapse to `None`; any other string is kept. -/
def orNone : Option String → Option String
  | none => none
  | some s => if s = "" then none else some s

/-- `response["Reservations"][0]["Instances"][0]`: an out-of-range index
raises in Python (caught by the surrounding `except`), modelled by
`none`. -/
def firstDescribedInstance (reservations : List (List InstanceRecord)) :
    Option InstanceRecord :=
  reservations.head?.bind List.head?

/-- Embedding of `_resolve_termination_target` (mcp_server.py lines
19-48).  Phase one queries `list_instances(project=identifier)`; a single
match returns its `InstanceId` and `Project` fields, several matches
return `(None, None)`, and zero matches fall back to a direct
`describe_instances(InstanceIds=[identifier])` lookup inside a
`try/except` that turns any failure into `(None, None)`.  The first
component of the result is the trace of collaborator calls issued. -/
def _resolve_termination_target (manager : Manager) (identifier : String) :
    List CallEvent × Except String (Option String × Option String) :=
  match manager.list_instances (some identifier) false with
  | .error e => ([CallEvent.listInstances (some identifier) false], .error e)
  | .ok instances =>
    match instances with
    | [inst] =>
      ([CallEvent.listInstances (some identifier) false],
        .ok (inst.instanceId, inst.project))
    | _ :: _ :: _ =>
      ([CallEvent.listInstances (some identifier) false], .ok (none, none))
    | [] =>
      match manager.describe_instances [identifier] with
      | .error _ =>
        ([CallEvent.listInstances (some identifier) false,
          CallEvent.describeInstances [identifier]], .ok (none, none))
      | .ok response =>
        match firstDescribedInstance response with
        | none =>
          ([CallEvent.listInstances (some identifier) false,
            CallEvent.describeInstances [identifier]], .ok (none, none))
        | some inst =>
          ([CallEvent.listInstances (some identifier) false,
            CallEvent.describeInstances [identifier]],
            .ok (inst.instanceId, orNone (get_project_tag inst.tags)))

/-- Result shape of `devbox_terminate`. -/
structure TerminateResult where
  success : Bool
  message : String
  project : Option String
  instance_id : Option String
deriving DecidableEq, Repr

/-- Embedding of `devbox_terminate` (mcp_server.py lines 136-167): resolve
the identifier for display, call `terminate_instance` with the raw
identifier, compose the response; any exception escaping the `try` block
is re-raised as `RuntimeError("Failed to terminate instance: " + str(e))`,
modelled by the prefixed error string. -/
def devbox_terminate (manager : Manager) (identifier : String) :
    List CallEvent × Except String TerminateResult :=
  match _resolve_termination_target manager identifier with
  | (trace, .error e) => (trace, .error ("Failed to terminate instance: " ++ e))
  | (trace, .ok (instance_id, project)) =>
    match manager.terminate_instance identifier with
    | .error e =>
      (trace ++ [CallEvent.terminateInstance identifier],
        .error ("Failed to terminate instance: " ++ e))
    | .ok (success, message) =>
      (trace ++ [CallEvent.terminateInstance identifier],
        .ok ⟨success, message, project, instance_id⟩)

/-- Result shape of `devbox_status`. -/
structure StatusResult where
  instances : List InstanceRecord
  volumes : List VolumeRecord
  snapshots : List SnapshotRecord
deriving DecidableEq, Repr

/-- Embedding of `devbox_status` (mcp_server.py lines 102-133): three
sequential read queries, each result returned unmodified; any exception
escaping the `try` block is re-raised as
`RuntimeError("Failed to retrieve status: " + str(e))`. -/
def devbox_status (manager : Manager) (project : Option String) :
    List CallEvent × Except String StatusResult :=
  match manager.list_instances project true with
  | .error e =>
    ([CallEvent.listInstances project true],
      .error ("Failed to retrieve status: " ++ e))
  | .ok instances =>
    match manager.list_volumes project with
    | .error e =>
      ([CallEvent.listInstances project true, CallEvent.listVolumes project],
        .error ("Failed to retrieve status: " ++ e))
    | .ok volumes =>
      match manager.list_snapshots project true with
      | .error e =>
        ([CallEvent.listInstances project true, CallEvent.listVolumes project,
          CallEvent.listSnapshots project true],
          .error ("Failed to retrieve status: " ++ e))
      | .ok snapshots =>
        ([CallEvent.listInstances project true, CallEvent.listVolumes project,
          CallEvent.listSnapshots project true],
          .ok ⟨instances, volumes, snapshots⟩)

/-- Arguments with which `devbox_launch` invokes the `launch_devbox`
collaborator (mcp_server.py lines 87-96); `emit_output` is always passed
`False` by the facade. -/
structure LaunchArgs where
  project : String
  instance_type : Option String
  key_pair : Option String
  volume_size : Nat
  base_ami : Option String
  param_prefix : String
  emit_output : Bool
deriving DecidableEq, Repr

/-- Embedding of `devbox_launch` (mcp_server.py lines 51-99): a pure
delegation to the `launch_devbox` collaborator with `emit_output=False`;
any exception is re-raised as
`RuntimeError("Failed to launch devbox: " + str(e))`. -/
def devbox_launch (launch_devbox : LaunchArgs → Except String LaunchResult)
    (project : String) (instance_type : Option String)
    (key_pair : Option String) (volume_size : Nat) (base_ami : Option String)
    ( param_prefix : String) : Except String LaunchResult :=
  match launch_devbox
      ⟨project, instance_type, key_pair, volume_size, base_ami, param_prefix,
        false⟩ with
  | .ok r => .ok r
  | .error e => .error ("Failed to launch devbox: " ++ e)

/-- Recognizer for terminate events in a call trace. -/
def isTerminateEvent : CallEvent → Bool
  | CallEvent.terminateInstance _ => true
  | _ => false

/-! Concrete managers used to instantiate the theorems below. -/

/-- A record for an instance tagged `project=my-project`. -/
def instA : InstanceRecord :=
  ⟨some "i-12345", some "my-project", [("Project", "my-project")]⟩

/-- A second record tagged `project=my-project`. -/
def instB : InstanceRecord :=
  ⟨some "i-67890", some "my-project", [("Project", "my-project")]⟩

/-- Manager with exactly one instance matching every project query and a
terminate call reporting `(True, "Terminating")`. -/
def mgrSingle : Manager :=
  ⟨fun _ _ => .ok [instA], fun _ => .ok [], fun _ _ => .ok [],
    fun _ => .error "unused", fun _ => .ok (true, "Terminating")⟩

/-- Manager with two instances matching every project query. -/
def mgrMulti : Manager :=
  ⟨fun _ _ => .ok [instA, instB], fun _ => .ok [], fun _ _ => .ok [],
    fun _ => .error "unused", fun _ => .ok (true, "Terminating")⟩

/-- Manager with no project matches and a failing direct-id lookup. -/
def mgrFallbackFail : Manager :=
  ⟨fun _ _ => .ok [], fun _ => .ok [], fun _ _ => .ok [],
    fun _ => .error "InvalidInstanceID.NotFound",
    fun _ => .ok (false, "No instance found")⟩

/-- Manager with no project matches and a direct-id lookup that returns an
instance carrying no `Project` tag. -/
def mgrFallbackOk : Manager :=
  ⟨fun _ _ => .ok [], fun _ => .ok [], fun _ _ => .ok [],
    fun _ => .ok [[⟨some "i-99999", none, [("Name", "box")]⟩]],
    fun _ => .ok (true, "Terminating")⟩

/-- Manager whose `list_instances` raises. -/
def mgrListFail : Manager :=
  ⟨fun _ _ => .error "Boom", fun _ => .ok [], fun _ _ => .ok [],
    fun _ => .error "Boom", fun _ => .ok (true, "Terminating")⟩

/-- Manager returning concrete non-empty results for all three status
queries. -/
def mgrStatus : Manager :=
  ⟨fun _ _ => .ok [instA], fun _ => .ok [⟨[("VolumeId", "vol-1")]⟩],
    fun _ _ => .ok [⟨[("SnapshotId", "snap-1")]⟩],
    fun _ => .error "unused", fun _ => .ok (true, "Terminating")⟩

/-- Launch collaborator that always raises. -/
def failLauncher : LaunchArgs → Except String LaunchResult :=
  fun _ => .error "Boom"

/-! Helper lemmas shared by several claim theorems. -/

/-- The resolver's call trace never contains a terminate event: it only
issues `list_instances` and `describe_instances` calls. -/
theorem resolve_trace_no_terminate (manager : Manager) (identifier : String) :
    (_resolve_termination_target manager identifier).fst.filter
      isTerminateEvent = [] := by
  unfold _resolve_termination_target
  cases hl : manager.list_instances (some identifier) false with
  | error e => rfl
  | ok l =>
    rcases l with _ | ⟨a, _ | ⟨b, t⟩⟩
    · dsimp only
      cases hd : manager.describe_instances [identifier] with
      | error e => rfl
      | ok response =>
        dsimp only
        cases hf : firstDescribedInstance response with
        | none => rfl
        | some inst => rfl
    · rfl
    · rfl

/-- If the resolver raises, the raised error is the one raised by its
phase-one `list_instances` query: no other part of the resolver raises. -/
theorem resolve_error_inv (manager : Manager) (identifier : String)
    (e : String)
    (h : (_resolve_termination_target manager identifier).snd
      = Except.error e) :
    manager.list_instances (some identifier) false = Except.error e := by
  unfold _resolve_termination_target at h
  cases hl : manager.list_instances (some identifier) false with
  | error e1 =>
    rw [hl] at h
    simp only [Except.error.injEq] at h
    rw [h]
  | ok l =>
    exfalso
    rw [hl] at h
    rcases l with _ | ⟨a, _ | ⟨b, t⟩⟩
    · dsimp only at h
      cases hd : manager.describe_instances [identifier] with
      | error e2 => rw [hd] at h; simp at h
      | ok response =>
        rw [hd] at h
        dsimp only at h
        cases hf : firstDescribedInstance response with
        | none => rw [hf] at h; simp at h
        | some inst => rw [hf] at h; simp at h
    · simp at h
    · simp at h

/-- C2: when the directory query by project tag returns exactly one
instance record, the resolver returns that record's instance id and
project, and its call trace shows no direct-id fallback lookup. -/
theorem resolve_single_match (manager : Manager) (identifier : String)
    (inst : InstanceRecord)
    (h : manager.list_instances (some identifier) false
      = Except.ok [inst]) :
    _resolve_termination_target manager identifier
      = ([CallEvent.listInstances (some identifier) false],
        Except.ok (inst.instanceId, inst.project)) := by
  unfold _resolve_termination_target
  rw [h]

/-- Witness for C2: `mgrSingle` has one instance tagged `my-project`. -/
theorem resolve_single_match_witness :
    mgrSingle.list_instances (some "my-project") false = Except.ok [instA]
      ∧ _resolve_termination_target mgrSingle "my-project"
        = ([CallEvent.listInstances (some "my-project") false],
          Except.ok (some "i-12345", some "my-project")) :=
  ⟨rfl, resolve_single_match mgrSingle "my-project" instA rfl⟩

/-- C3: when the directory query by project tag returns two or more
instance records, the resolver returns `(None, None)` without raising and
without attempting the direct-id fallback lookup. -/
theorem resolve_ambiguous (manager : Manager) (identifier : String)
    (a b : InstanceRecord) (rest : List InstanceRecord)
    (h : manager.list_instances (some identifier) false
      = Except.ok (a :: b :: rest)) :
    _resolve_termination_target manager identifier
      = ([CallEvent.listInstances (some identifier) false],
        Except.ok (none, none)) := by
  unfold _resolve_termination_target
  rw [h]

/-- Witness for C3: `mgrMulti` has two instances tagged `my-project`. -/
theorem resolve_ambiguous_witness :
    mgrMulti.list_instances (some "my-project") false
        = Except.ok [instA, instB]
      ∧ _resolve_termination_target mgrMulti "my-project"
        = ([CallEvent.listInstances (some "my-project") false],
          Except.ok (none, none)) :=
  ⟨rfl, resolve_ambiguous mgrMulti "my-project" instA instB [] rfl⟩

/-- C4: when the directory query by project tag returns zero records, the
resolver falls back to a direct lookup of the identifier as an instance id
(visible in the trace), and if that lookup raises for any reason the
resolver returns `(None, None)` instead of propagating the error. -/
theorem resolve_fallback_failure (manager : Manager) (identifier : String)
    (e : String)
    (h0 : manager.list_instances (some identifier) false = Except.ok [])
    (h1 : manager.describe_instances [identifier] = Except.error e) :
    _resolve_termination_target manager identifier
      = ([CallEvent.listInstances (some identifier) false,
          CallEvent.describeInstances [identifier]],
        Except.ok (none, none)) := by
  unfold _resolve_termination_target
  rw [h0]
  dsimp only
  rw [h1]

/-- Witness for C4: `mgrFallbackFail` has no project matches and its
direct-id lookup raises `InvalidInstanceID.NotFound`. -/
theorem resolve_fallback_failure_witness :
    mgrFallbackFail.list_instances (some "ghost") false = Except.ok []
      ∧ mgrFallbackFail.describe_instances ["ghost"]
        = Except.error "InvalidInstanceID.NotFound"
      ∧ _resolve_termination_target mgrFallbackFail "ghost"
        = ([CallEvent.listInstances (some "ghost") false,
            CallEvent.describeInstances ["ghost"]],
          Except.ok (none, none)) :=
  ⟨rfl, rfl, resolve_fallback_failure mgrFallbackFail "ghost"
    "InvalidInstanceID.NotFound" rfl rfl⟩

/-- C9: in the direct-id fallback path, an absent `Project` tag (the
extraction helper yields `None`) and an empty-string tag value are both
normalized to a null project by the `or None` idiom, and the returned
instance id is the one in the provider's returned record, not the
caller's identifier. -/
theorem resolve_fallback_project_normalization (manager : Manager)
    (identifier : String) (response : List (List InstanceRecord))
    (inst : InstanceRecord)
    (h0 : manager.list_instances (some identifier) false = Except.ok [])
    (h1 : manager.describe_instances [identifier] = Except.ok response)
    (h2 : firstDescribedInstance response = some inst)
    (h3 : get_project_tag inst.tags = none
      ∨ get_project_tag inst.tags = some "") :
    (_resolve_termination_target manager identifier).snd
      = Except.ok (inst.instanceId, none) := by
  unfold _resolve_termination_target
  rw [h0]
  dsimp only
  rw [h1]
  dsimp only
  rw [h2]
  rcases h3 with h3 | h3 <;> simp [h3, orNone]

/-- Witness for C9: `mgrFallbackOk` resolves `"ghost"` to the record
`i-99999`, whose tags carry no `Project` key, so the project is null and
the id differs from the caller's identifier. -/
theorem resolve_fallback_project_normalization_witness :
    mgrFallbackOk.list_instances (some "ghost") false = Except.ok []
      ∧ mgrFallbackOk.describe_instances ["ghost"]
        = Except.ok [[⟨some "i-99999", none, [("Name", "box")]⟩]]
      ∧ firstDescribedInstance [[⟨some "i-99999", none, [("Name", "box")]⟩]]
        = some ⟨some "i-99999", none, [("Name", "box")]⟩
      ∧ get_project_tag [("Name", "box")] = none
      ∧ (_resolve_termination_target mgrFallbackOk "ghost").snd
        = Except.ok (some "i-99999", none) :=
  ⟨rfl, rfl, rfl, rfl,
    resolve_fallback_project_normalization mgrFallbackOk "ghost"
      [[⟨some "i-99999", none, [("Name", "box")]⟩]]
      ⟨some "i-99999", none, [("Name", "box")]⟩ rfl rfl rfl (Or.inl rfl)⟩

/-- C10: if the phase-one directory query raises, the error propagates out
of the resolver uncaught, and `devbox_terminate` raises its normalized
failure without ever invoking the collaborator's terminate operation (the
trace ends with the failing `list_instances` call). -/
theorem resolve_phase1_error_propagates (manager : Manager)
    (identifier : String) (e : String)
    (h : manager.list_instances (some identifier) false
      = Except.error e) :
    _resolve_termination_target manager identifier
        = ([CallEvent.listInstances (some identifier) false],
          Except.error e)
      ∧ devbox_terminate manager identifier
        = ([CallEvent.listInstances (some identifier) false],
          Except.error ("Failed to terminate instance: " ++ e)) := by
  have h1 : _resolve_termination_target manager identifier
      = ([CallEvent.listInstances (some identifier) false],
        Except.error e) := by
    unfold _resolve_termination_target
    rw [h]
  refine ⟨h1, ?_⟩
  unfold devbox_terminate
  rw [h1]

/-- Witness for C10: `mgrListFail` raises `Boom` from `list_instances`. -/
theorem resolve_phase1_error_propagates_witness :
    mgrListFail.list_instances (some "my-project") false
        = Except.error "Boom"
      ∧ _resolve_termination_target mgrListFail "my-project"
          = ([CallEvent.listInstances (some "my-project") false],
            Except.error "Boom")
      ∧ devbox_terminate mgrListFail "my-project"
          = ([CallEvent.listInstances (some "my-project") false],
            Except.error ("Failed to terminate instance: " ++ "Boom")) :=
  ⟨rfl, (resolve_phase1_error_propagates mgrListFail "my-project" "Boom"
      rfl).1,
    (resolve_phase1_error_propagates mgrListFail "my-project" "Boom"
      rfl).2⟩

/-- C1: whenever the resolver returns a pair (even `(None, None)`),
`devbox_terminate` invokes the collaborator's terminate operation exactly
once, and with the raw identifier it received from the caller — the
resolved pair is never substituted for the identifier. -/
theorem devbox_terminate_raw_identifier (manager : Manager)
    (identifier : String) (r : Option String × Option String)
    (h : (_resolve_termination_target manager identifier).snd
      = Except.ok r) :
    (devbox_terminate manager identifier).fst.filter isTerminateEvent
      = [CallEvent.terminateInstance identifier] := by
  have ht := resolve_trace_no_terminate manager identifier
  unfold devbox_terminate
  cases hr : _resolve_termination_target manager identifier with
  | mk trace res =>
    rw [hr] at h ht
    simp only at h ht
    subst h
    rcases r with ⟨iid, proj⟩
    dsimp only
    cases ht2 : manager.terminate_instance identifier with
    | error e => simp [List.filter_append, ht, isTerminateEvent]
    | ok p =>
      rcases p with ⟨s, m⟩
      simp [List.filter_append, ht, isTerminateEvent]

/-- Witness for C1: `mgrSingle` resolves `"my-project"` and the terminate
call trace contains exactly one terminate event, carrying the raw
identifier. -/
theorem devbox_terminate_raw_identifier_witness :
    (_resolve_termination_target mgrSingle "my-project").snd
        = Except.ok (some "i-12345", some "my-project")
      ∧ (devbox_terminate mgrSingle "my-project").fst.filter
          isTerminateEvent
        = [CallEvent.terminateInstance "my-project"] :=
  ⟨rfl, devbox_terminate_raw_identifier mgrSingle "my-project"
    (some "i-12345", some "my-project") rfl⟩

/-- C8: a successful `devbox_terminate` response is composed of exactly
the collaborator's `(success, message)` pair together with the resolver's
`(instance_id, project)` pair, independent of whether they agree. -/
theorem devbox_terminate_compose (manager : Manager) (identifier : String)
    (iid proj : Option String) (success : Bool) (message : String)
    (h1 : (_resolve_termination_target manager identifier).snd
      = Except.ok (iid, proj))
    (h2 : manager.terminate_instance identifier
      = Except.ok (success, message)) :
    (devbox_terminate manager identifier).snd
      = Except.ok ⟨success, message, proj, iid⟩ := by
  unfold devbox_terminate
  cases hr : _resolve_termination_target manager identifier with
  | mk trace res =>
    rw [hr] at h1
    simp only at h1
    subst h1
    dsimp only
    rw [h2]

/-- Witness for C8, the spec scenario: one instance tagged
`project=my-project` and a collaborator reporting `(True, "Terminating")`;
`devbox_terminate("my-project")` returns success, message, project and the
resolved instance id. -/
theorem devbox_terminate_compose_witness :
    (_resolve_termination_target mgrSingle "my-project").snd
        = Except.ok (some "i-12345", some "my-project")
      ∧ mgrSingle.terminate_instance "my-project"
        = Except.ok (true, "Terminating")
      ∧ (devbox_terminate mgrSingle "my-project").snd
        = Except.ok ⟨true, "Terminating", some "my-project",
            some "i-12345"⟩ :=
  ⟨rfl, rfl, devbox_terminate_compose mgrSingle "my-project"
    (some "i-12345") (some "my-project") true "Terminating" rfl rfl⟩

/-- C5: a successful `devbox_status` call issues each of the three
directory queries exactly once, each filtered by the given project (with
`serialize=True` for instances and snapshots), and returns the three
result collections unmodified and uncombined, in the order the directory
produced them. -/
theorem devbox_status_success (manager : Manager)
    (project : Option String) (instances : List InstanceRecord)
    (volumes : List VolumeRecord) (snapshots : List SnapshotRecord)
    (hi : manager.list_instances project true = Except.ok instances)
    (hv : manager.list_volumes project = Except.ok volumes)
    (hs : manager.list_snapshots project true = Except.ok snapshots) :
    devbox_status manager project
      = ([CallEvent.listInstances project true,
          CallEvent.listVolumes project,
          CallEvent.listSnapshots project true],
        Except.ok ⟨instances, volumes, snapshots⟩) := by
  unfold devbox_status
  rw [hi]
  dsimp only
  rw [hv]
  dsimp only
  rw [hs]

/-- Witness for C5: `mgrStatus` returns concrete collections for all
three queries. -/
theorem devbox_status_success_witness :
    mgrStatus.list_instances (some "my-project") true = Except.ok [instA]
      ∧ mgrStatus.list_volumes (some "my-project")
        = Except.ok [⟨[("VolumeId", "vol-1")]⟩]
      ∧ mgrStatus.list_snapshots (some "my-project") true
        = Except.ok [⟨[("SnapshotId", "snap-1")]⟩]
      ∧ devbox_status mgrStatus (some "my-project")
        = ([CallEvent.listInstances (some "my-project") true,
            CallEvent.listVolumes (some "my-project"),
            CallEvent.listSnapshots (some "my-project") true],
          Except.ok ⟨[instA], [⟨[("VolumeId", "vol-1")]⟩],
            [⟨[("SnapshotId", "snap-1")]⟩]⟩) :=
  ⟨rfl, rfl, rfl, devbox_status_success mgrStatus (some "my-project")
    [instA] [⟨[("VolumeId", "vol-1")]⟩] [⟨[("SnapshotId", "snap-1")]⟩]
    rfl rfl rfl⟩

/-- C6: if any one of the three directory queries raises, `devbox_status`
aborts with a single normalized status-retrieval failure and returns no
partial data, regardless of whether the other queries would have
succeeded. -/
theorem devbox_status_failure (manager : Manager)
    (project : Option String) (e : String)
    (h : manager.list_instances project true = Except.error e
      ∨ manager.list_volumes project = Except.error e
      ∨ manager.list_snapshots project true = Except.error e) :
    ∃ msg, (devbox_status manager project).snd
      = Except.error ("Failed to retrieve status: " ++ msg) := by
  unfold devbox_status
  cases hi : manager.list_instances project true with
  | error e1 => exact ⟨e1, rfl⟩
  | ok instances =>
    dsimp only
    cases hv : manager.list_volumes project with
    | error e2 => exact ⟨e2, rfl⟩
    | ok volumes =>
      dsimp only
      cases hs : manager.list_snapshots project true with
      | error e3 => exact ⟨e3, rfl⟩
      | ok snapshots =>
        exfalso
        rcases h with h | h | h
        · rw [hi] at h; exact Except.noConfusion h
        · rw [hv] at h; exact Except.noConfusion h
        · rw [hs] at h; exact Except.noConfusion h

/-- Witness for C6: `mgrListFail` raises from `list_instances`. -/
theorem devbox_status_failure_witness :
    (mgrListFail.list_instances (some "my-project") true
          = Except.error "Boom"
        ∨ mgrListFail.list_volumes (some "my-project")
          = Except.error "Boom"
        ∨ mgrListFail.list_snapshots (some "my-project") true
          = Except.error "Boom")
      ∧ ∃ msg, (devbox_status mgrListFail (some "my-project")).snd
        = Except.error ("Failed to retrieve status: " ++ msg) :=
  ⟨Or.inl rfl, devbox_status_failure mgrListFail (some "my-project")
    "Boom" (Or.inl rfl)⟩

/-- C7: each facade operation catches every collaborator failure at its
boundary and re-raises exactly one normalized failure whose message is
the original failure's description prefixed with the failing operation:
`Failed to launch devbox: ...`, `Failed to retrieve status: ...`,
`Failed to terminate instance: ...`. -/
theorem facade_error_normalization :
    (∀ (launch_devbox : LaunchArgs → Except String LaunchResult)
        (project : String) (instance_type key_pair : Option String)
        (volume_size : Nat) (base_ami : Option String) (pp : String)
        (r : String),
      devbox_launch launch_devbox project instance_type key_pair
          volume_size base_ami pp = Except.error r
        → ∃ e, launch_devbox ⟨project, instance_type, key_pair,
            volume_size, base_ami, pp, false⟩ = Except.error e
          ∧ r = "Failed to launch devbox: " ++ e)
    ∧ (∀ (manager : Manager) (project : Option String) (r : String),
      (devbox_status manager project).snd = Except.error r
        → ∃ e, (manager.list_instances project true = Except.error e
            ∨ manager.list_volumes project = Except.error e
            ∨ manager.list_snapshots project true = Except.error e)
          ∧ r = "Failed to retrieve status: " ++ e)
    ∧ (∀ (manager : Manager) (identifier : String) (r : String),
      (devbox_terminate manager identifier).snd = Except.error r
        → ∃ e, (manager.list_instances (some identifier) false
              = Except.error e
            ∨ manager.terminate_instance identifier = Except.error e)
          ∧ r = "Failed to terminate instance: " ++ e) := by
  refine ⟨?_, ?_, ?_⟩
  · intro f project it kp vs ba pp r h
    unfold devbox_launch at h
    cases hf : f ⟨project, it, kp, vs, ba, pp, false⟩ with
    | error e =>
      rw [hf] at h
      exact ⟨e, rfl, (Except.error.inj h).symm⟩
    | ok v =>
      rw [hf] at h
      exact absurd h (by simp)
  · intro manager project r h
    unfold devbox_status at h
    cases hi : manager.list_instances project true with
    | error e1 =>
      rw [hi] at h
      exact ⟨e1, Or.inl rfl, (Except.error.inj h).symm⟩
    | ok instances =>
      rw [hi] at h
      dsimp only at h
      cases hv : manager.list_volumes project with
      | error e2 =>
        rw [hv] at h
        exact ⟨e2, Or.inr (Or.inl rfl), (Except.error.inj h).symm⟩
      | ok volumes =>
        rw [hv] at h
        dsimp only at h
        cases hs : manager.list_snapshots project true with
        | error e3 =>
          rw [hs] at h
          exact ⟨e3, Or.inr (Or.inr rfl), (Except.error.inj h).symm⟩
        | ok snapshots =>
          rw [hs] at h
          exact absurd h (by simp)
  · intro manager identifier r h
    unfold devbox_terminate at h
    cases hr : _resolve_termination_target manager identifier with
    | mk trace res =>
      rw [hr] at h
      cases res with
      | error e =>
        dsimp only at h
        refine ⟨e, Or.inl ?_, (Except.error.inj h).symm⟩
        exact resolve_error_inv manager identifier e (by rw [hr])
      | ok p =>
        rcases p with ⟨iid, proj⟩
        dsimp only at h
        cases ht : manager.terminate_instance identifier with
        | error e =>
          rw [ht] at h
          exact ⟨e, Or.inr rfl, (Except.error.inj h).symm⟩
        | ok p2 =>
          rcases p2 with ⟨s, m⟩
          rw [ht] at h
          exact absurd h (by simp)

/-- Witness for C7: a failing launcher and `mgrListFail` produce the
three normalized messages. -/
theorem facade_error_normalization_witness :
    (∃ e, failLauncher ⟨"demo", none, none, 0, none, "/devbox", false⟩
        = Except.error e
      ∧ "Failed to launch devbox: Boom"
        = "Failed to launch devbox: " ++ e)
    ∧ (∃ e, (mgrListFail.list_instances (some "demo") true
          = Except.error e
        ∨ mgrListFail.list_volumes (some "demo") = Except.error e
        ∨ mgrListFail.list_snapshots (some "demo") true = Except.error e)
      ∧ "Failed to retrieve status: Boom"
        = "Failed to retrieve status: " ++ e)
    ∧ (∃ e, (mgrListFail.list_instances (some "demo") false
          = Except.error e
        ∨ mgrListFail.terminate_instance "demo" = Except.error e)
      ∧ "Failed to terminate instance: Boom"
        = "Failed to terminate instance: " ++ e) :=
  ⟨facade_error_normalization.1 failLauncher "demo" none none 0 none
      "/devbox" "Failed to launch devbox: Boom" rfl,
    facade_error_normalization.2.1 mgrListFail (some "demo")
      "Failed to retrieve status: Boom" rfl,
    facade_error_normalization.2.2 mgrListFail "demo"
      "Failed to terminate instance: Boom" rfl⟩

end Devbox
